import Mathlib

/-!
Verification of the recursive state-estimation scripts of the repository
"Kalman-Filter-Emulation-Using-Python".

Each script is a pure arithmetic recurrence over one hard-coded list of
scalar measurements.  The embedding below translates those recurrences into
Lean functions over `ℚ` (the scripts use Python floats; every claim checked
here concerns exact values printed at two decimals or order/sign facts that
are robust to rounding, so the exact-rational idealization is faithful).

Sources embedded:
* `Ch-3_Alpha-Beta-Gamma-Filter/Ex-1.py` — order-0 static model with the
  harmonic gain α = 1/n (`staticLoop`, `staticRun`);
* `Ch-3_Alpha-Beta-Gamma-Filter/Ex-2.py` and `Ex-3.py` — order-1 α–β filter
  (`cvRun`);
* `Ch-3_Alpha-Beta-Gamma-Filter/Ex-4.py` — order-2 α–β–γ filter
  (`caPredict`, `caRun`);
* `Ch-4_Kalman-Filter-in-1-D/Ex-1.py` and `Ch-5_Adding-Process-Noise/Ex-1.py`,
  `Ex-2.py`, `Ex-3.py` — covariance-gain (Kalman) filter (`kalmanStep`,
  `kalmanRun`); the Ch-4 script is the `q = 0` instance of the Ch-5 loop.
-/

/-- Order-0 estimation loop of `Ch-3/Ex-1.py` (lines 57–69): at 1-based step
`n`, prediction `x_pred = x_est`, gain `alpha = 1/n`, update
`x_est = x_pred + alpha * (z - x_pred)`.  Returns the list of
(prediction, estimate) pairs, one per measurement. -/
def staticLoop (x_est : ℚ) (n : ℕ) : List ℚ → List (ℚ × ℚ)
  | [] => []
  | z :: zs =>
      (x_est, x_est + (1 / (n : ℚ)) * (z - x_est)) ::
        staticLoop (x_est + (1 / (n : ℚ)) * (z - x_est)) (n + 1) zs

/-- Entry point of the `Ch-3/Ex-1.py` loop: `enumerate(measurements, start=1)`
begins the step index at 1. -/
def staticRun (x0 : ℚ) (ms : List ℚ) : List (ℚ × ℚ) :=
  staticLoop x0 1 ms

/-- One record of the order-1 run of `Ch-3/Ex-2.py`: predicted range,
predicted velocity, estimated range, estimated velocity at one step. -/
structure CVRecord where
  xPred : ℚ
  vxPred : ℚ
  xEst : ℚ
  vxEst : ℚ
deriving DecidableEq

/-- Order-1 (constant-velocity) α–β loop of `Ch-3/Ex-2.py` (lines 78–103):
`x_pred = x_est + delta_t * vx_est`, `vx_pred = vx_est`,
`residual = z - x_pred`, `x_est = x_pred + alpha * residual`,
`vx_est = vx_pred + beta * residual / delta_t`. -/
def cvRun (alpha beta delta_t : ℚ) : ℚ × ℚ → List ℚ → List CVRecord
  | _, [] => []
  | (x_est, vx_est), z :: zs =>
      let x_pred := x_est + delta_t * vx_est
      let vx_pred := vx_est
      let residual := z - x_pred
      let x_new := x_pred + alpha * residual
      let vx_new := vx_pred + beta * residual / delta_t
      ⟨x_pred, vx_pred, x_new, vx_new⟩ :: cvRun alpha beta delta_t (x_new, vx_new) zs

/-- Order-2 prediction step of `Ch-3/Ex-4.py` (lines 115–117):
`x_pred = x_est + delta_t * vx_est + 0.5 * ax_est * delta_t ** 2`,
`vx_pred = vx_est + ax_est * delta_t`, `ax_pred = ax_est`. -/
def caPredict (delta_t : ℚ) (s : ℚ × ℚ × ℚ) : ℚ × ℚ × ℚ :=
  (s.1 + delta_t * s.2.1 + 1/2 * s.2.2 * delta_t ^ 2,
   s.2.1 + s.2.2 * delta_t,
   s.2.2)

/-- One record of the order-2 run of `Ch-3/Ex-4.py`. -/
structure CARecord where
  xPred : ℚ
  vxPred : ℚ
  axPred : ℚ
  xEst : ℚ
  vxEst : ℚ
  axEst : ℚ
deriving DecidableEq

/-- Order-2 (constant-acceleration) α–β–γ loop of `Ch-3/Ex-4.py`
(lines 96–133): prediction by `caPredict`, then `residual = z - x_pred`,
`x_est = x_pred + alpha * residual`,
`vx_est = vx_pred + beta * (residual / delta_t)`,
`ax_est = ax_pred + gamma * (residual / (0.5 * delta_t ** 2))`. -/
def caRun (alpha beta gamma delta_t : ℚ) : ℚ × ℚ × ℚ → List ℚ → List CARecord
  | _, [] => []
  | s, z :: zs =>
      let p := caPredict delta_t s
      let residual := z - p.1
      let x_new := p.1 + alpha * residual
      let vx_new := p.2.1 + beta * (residual / delta_t)
      let ax_new := p.2.2 + gamma * (residual / (1/2 * delta_t ^ 2))
      ⟨p.1, p.2.1, p.2.2, x_new, vx_new, ax_new⟩ ::
        caRun alpha beta gamma delta_t (x_new, vx_new, ax_new) zs

/-- One covariance-gain step of `Ch-5/Ex-1.py` (lines 86–101):
`x_pred = x_est`, `p_pred = p_est + q`, `K = p_pred / (p_pred + r)`,
`x_est = x_pred + K * (z - x_pred)`, `p_est = (1 - K) * p_pred`.
Returns `(K, new x_est, new p_est)`.  `Ch-4/Ex-1.py` (lines 79–96) is the
same step with `q = 0` (`p_pred = p_est` there). -/
def kalmanStep (q r x_est p_est z : ℚ) : ℚ × ℚ × ℚ :=
  let x_pred := x_est
  let p_pred := p_est + q
  let K := p_pred / (p_pred + r)
  (K, x_pred + K * (z - x_pred), (1 - K) * p_pred)

/-- One record of a covariance-gain run: predicted state, Kalman gain,
updated estimate, post-update variance. -/
structure KRecord where
  pred : ℚ
  gain : ℚ
  est : ℚ
  var : ℚ
deriving DecidableEq

/-- Covariance-gain estimation loop of `Ch-5/Ex-1.py` / `Ch-5/Ex-2.py` /
`Ch-5/Ex-3.py` (and, at `q = 0`, `Ch-4/Ex-1.py`): one `kalmanStep` per
measurement, threading the estimate and variance. -/
def kalmanRun (q r x_est p_est : ℚ) : List ℚ → List KRecord
  | [] => []
  | z :: zs =>
      ⟨x_est, (kalmanStep q r x_est p_est z).1, (kalmanStep q r x_est p_est z).2.1,
        (kalmanStep q r x_est p_est z).2.2⟩ ::
        kalmanRun q r (kalmanStep q r x_est p_est z).2.1 (kalmanStep q r x_est p_est z).2.2 zs

/-- Rounding to two decimals, as the scripts' `:.2f` table format displays
values (round-half-up on the scaled value). -/
def round2 (x : ℚ) : ℚ := (⌊100 * x + 1/2⌋ : ℤ) / 100

/-- Error taxonomy of spec §7 for the generalized engine. -/
inductive FilterError where
  | invalidParameter
deriving DecidableEq

/-- Modelled from the spec: the generalized engine's parameter validation
(spec §4.1 and §7) is not present in the repository scripts — each script
hard-codes `delta_t = 5` and never checks it.  Per the spec, Δt = 0 with
model order ≥ 1 must fail with `InvalidParameter` at construction or first
use instead of dividing by zero in the velocity/acceleration correction. -/
def validateDeltaT (order : ℕ) (delta_t : ℚ) : Except FilterError Unit :=
  if 1 ≤ order ∧ delta_t = 0 then .error .invalidParameter else .ok ()

/-- Modelled from the spec: the order-1 run guarded by the Δt validation the
spec requires (absent from the scripts themselves). -/
def cvRunChecked (alpha beta delta_t : ℚ) (s0 : ℚ × ℚ) (ms : List ℚ) :
    Except FilterError (List CVRecord) :=
  (validateDeltaT 1 delta_t).bind fun _ => .ok (cvRun alpha beta delta_t s0 ms)

/-- Modelled from the spec: the order-2 run guarded by the Δt validation the
spec requires (absent from the scripts themselves). -/
def caRunChecked (alpha beta gamma delta_t : ℚ) (s0 : ℚ × ℚ × ℚ) (ms : List ℚ) :
    Except FilterError (List CARecord) :=
  (validateDeltaT 2 delta_t).bind fun _ => .ok (caRun alpha beta gamma delta_t s0 ms)

/-! ## Helper lemmas -/

/-- Unfolding: the gain returned by `kalmanStep`. -/
lemma kalmanStep_gain (q r x p z : ℚ) :
    (kalmanStep q r x p z).1 = (p + q) / (p + q + r) := rfl

/-- Unfolding: the post-update variance returned by `kalmanStep`. -/
lemma kalmanStep_var (q r x p z : ℚ) :
    (kalmanStep q r x p z).2.2 = (1 - (p + q) / (p + q + r)) * (p + q) := rfl

/-- Unfolding: one step of `kalmanRun`. -/
lemma kalmanRun_cons (q r x p z : ℚ) (zs : List ℚ) :
    kalmanRun q r x p (z :: zs) =
      ⟨x, (kalmanStep q r x p z).1, (kalmanStep q r x p z).2.1,
        (kalmanStep q r x p z).2.2⟩ ::
        kalmanRun q r (kalmanStep q r x p z).2.1 (kalmanStep q r x p z).2.2 zs := rfl

/-- The Kalman gain `P/(P+r)` is nonnegative when `P ≥ 0` and `r > 0`. -/
lemma kgain_nonneg {P r : ℚ} (hP : 0 ≤ P) (hr : 0 < r) : 0 ≤ P / (P + r) :=
  div_nonneg hP (by linarith)

/-- The Kalman gain `P/(P+r)` is at most one when `P ≥ 0` and `r > 0`. -/
lemma kgain_le_one {P r : ℚ} (hP : 0 ≤ P) (hr : 0 < r) : P / (P + r) ≤ 1 := by
  rw [div_le_one (by linarith)]
  linarith

/-- The post-update variance `(1 - K)·P` is nonnegative. -/
lemma kvar_nonneg {P r : ℚ} (hP : 0 ≤ P) (hr : 0 < r) :
    0 ≤ (1 - P / (P + r)) * P :=
  mul_nonneg (by have := kgain_le_one hP hr; linarith) hP

/-- The update sub-step never increases the variance: `(1 - K)·P ≤ P`. -/
lemma kvar_le {P r : ℚ} (hP : 0 ≤ P) (hr : 0 < r) :
    (1 - P / (P + r)) * P ≤ P := by
  have h1 : 0 ≤ P / (P + r) * P := mul_nonneg (kgain_nonneg hP hr) hP
  nlinarith

/-- The map `t ↦ t/(t+r)` is monotone on nonnegative inputs for `r > 0`. -/
lemma kgain_mono {a b r : ℚ} (ha : 0 ≤ a) (hab : a ≤ b) (hr : 0 < r) :
    a / (a + r) ≤ b / (b + r) := by
  have hA : 0 < a + r := by linarith
  have hB : 0 < b + r := by linarith
  rw [div_le_div_iff₀ hA hB]
  nlinarith

/-- All post-update variances of a covariance-gain run are nonnegative. -/
lemma kalmanRun_var_nonneg {q r : ℚ} (hq : 0 ≤ q) (hr : 0 < r) :
    ∀ (ms : List ℚ) (x p : ℚ), 0 ≤ p →
      ∀ rec ∈ kalmanRun q r x p ms, 0 ≤ rec.var := by
  intro ms
  induction ms with
  | nil => intro x p hp rec h; simp [kalmanRun] at h
  | cons z zs ih =>
      intro x p hp rec h
      have hP : 0 ≤ p + q := by linarith
      have hvar : 0 ≤ (kalmanStep q r x p z).2.2 := by
        rw [kalmanStep_var]; exact kvar_nonneg hP hr
      rw [kalmanRun_cons, List.mem_cons] at h
      rcases h with h | h
      · rw [h]; exact hvar
      · exact ih _ _ hvar rec h

/-- All Kalman gains of a covariance-gain run lie in `[0, 1]`. -/
lemma kalmanRun_gain_mem_unit {q r : ℚ} (hq : 0 ≤ q) (hr : 0 < r) :
    ∀ (ms : List ℚ) (x p : ℚ), 0 ≤ p →
      ∀ rec ∈ kalmanRun q r x p ms, 0 ≤ rec.gain ∧ rec.gain ≤ 1 := by
  intro ms
  induction ms with
  | nil => intro x p hp rec h; simp [kalmanRun] at h
  | cons z zs ih =>
      intro x p hp rec h
      have hP : 0 ≤ p + q := by linarith
      rw [kalmanRun_cons, List.mem_cons] at h
      rcases h with h | h
      · rw [h]
        exact ⟨by rw [kalmanStep_gain]; exact kgain_nonneg hP hr,
               by rw [kalmanStep_gain]; exact kgain_le_one hP hr⟩
      · exact ih _ _ (by rw [kalmanStep_var]; exact kvar_nonneg hP hr) rec h

/-- Consecutive post-update variances of a covariance-gain run grow by at
most the process noise `q`, starting from the initial variance. -/
lemma kalmanRun_var_chain {q r : ℚ} (hq : 0 ≤ q) (hr : 0 < r) :
    ∀ (ms : List ℚ) (x p : ℚ), 0 ≤ p →
      List.Chain' (fun a b => b ≤ a + q) (p :: (kalmanRun q r x p ms).map KRecord.var) := by
  intro ms
  induction ms with
  | nil => intro x p hp; simp [kalmanRun]
  | cons z zs ih =>
      intro x p hp
      have hP : 0 ≤ p + q := by linarith
      rw [kalmanRun_cons, List.map_cons, List.chain'_cons]
      refine ⟨?_, ?_⟩
      · rw [kalmanStep_var]; exact kvar_le hP hr
      · exact ih _ _ (by rw [kalmanStep_var]; exact kvar_nonneg hP hr)

/-- With `q = 0` the variance and gain sequences of a covariance-gain run
are non-increasing; the head bounds feed the induction. -/
lemma kalmanRun_q0_chains {r : ℚ} (hr : 0 < r) :
    ∀ (ms : List ℚ) (x p : ℚ), 0 ≤ p →
      (∀ v ∈ ((kalmanRun 0 r x p ms).map KRecord.var).head?, v ≤ p) ∧
      (∀ g ∈ ((kalmanRun 0 r x p ms).map KRecord.gain).head?, g ≤ p / (p + r)) ∧
      List.Chain' (fun a b => b ≤ a) ((kalmanRun 0 r x p ms).map KRecord.var) ∧
      List.Chain' (fun a b => b ≤ a) ((kalmanRun 0 r x p ms).map KRecord.gain) := by
  intro ms
  induction ms with
  | nil => intro x p hp; simp [kalmanRun]
  | cons z zs ih =>
      intro x p hp
      have hP : 0 ≤ p + 0 := by linarith
      have hvar : (kalmanStep 0 r x p z).2.2 ≤ p := by
        rw [kalmanStep_var]
        have h := kvar_le hP hr
        linarith
      have hvnn : 0 ≤ (kalmanStep 0 r x p z).2.2 := by
        rw [kalmanStep_var]; exact kvar_nonneg hP hr
      have hgain : (kalmanStep 0 r x p z).1 = p / (p + r) := by
        rw [kalmanStep_gain, add_zero]
      obtain ⟨ihv, ihg, ihcv, ihcg⟩ :=
        ih (kalmanStep 0 r x p z).2.1 (kalmanStep 0 r x p z).2.2 hvnn
      rw [kalmanRun_cons, List.map_cons, List.map_cons]
      refine ⟨?_, ?_, ?_, ?_⟩
      · intro v hv
        simp only [List.head?_cons, Option.mem_def, Option.some.injEq] at hv
        rw [← hv]; exact hvar
      · intro g hg
        simp only [List.head?_cons, Option.mem_def, Option.some.injEq] at hg
        rw [← hg, hgain]
      · rw [List.chain'_cons']
        exact ⟨fun v hv => ihv v hv, ihcv⟩
      · rw [List.chain'_cons']
        refine ⟨fun g hg => ?_, ihcg⟩
        calc g ≤ (kalmanStep 0 r x p z).2.2 / ((kalmanStep 0 r x p z).2.2 + r) := ihg g hg
          _ ≤ p / (p + r) := kgain_mono hvnn hvar hr
          _ = (kalmanStep 0 r x p z).1 := hgain.symm

/-- With the harmonic gain `1/n` and starting index `m + 1`, the `k`-th
recorded estimate of `staticLoop` is the weighted mean
`(m·x + Σ first (k+1) measurements) / (m + k + 1)`. -/
lemma staticLoop_estimate :
    ∀ (zs : List ℚ) (m k : ℕ) (x : ℚ), k < zs.length →
      ((staticLoop x (m + 1) zs).map Prod.snd).getD k 0
        = ((m : ℚ) * x + (zs.take (k + 1)).sum) / ((m : ℚ) + (k : ℚ) + 1) := by
  intro zs
  induction zs with
  | nil => intro m k x hk; simp at hk
  | cons z zs ih =>
      intro m k x hk
      have hm : ((m : ℚ) + 1) ≠ 0 := by positivity
      cases k with
      | zero =>
          simp only [staticLoop, List.map_cons, List.getD_cons_zero, List.take_succ_cons,
            List.take_zero, List.sum_cons, List.sum_nil, Nat.cast_zero]
          push_cast
          field_simp
          ring
      | succ k' =>
          have hk' : k' < zs.length := by simpa using hk
          simp only [staticLoop, List.map_cons, List.getD_cons_succ, List.take_succ_cons,
            List.sum_cons]
          rw [ih (m + 1) k' _ hk']
          push_cast
          rw [div_eq_div_iff (by positivity) (by positivity)]
          field_simp
          ring

/-! ## Claim theorems -/

/-- Claim C1 (counterexample): for the order-1 model with Δt = 5, α = 0.2,
β = 0.1, initial state (30000, 40) and the single measurement 30171, the
estimated velocity produced by the code is 39.42, not 37.10 as claimed:
`vx = 40 + 0.1·(30171 − 30200)/5 = 40 − 0.58 = 39.42`. -/
theorem cvRun_first_step_velocity_counterexample :
    (cvRun (1/5) (1/10) 5 (30000, 40) [30171]).map CVRecord.vxEst ≠ [371/10] := by
  norm_num [cvRun]

/-- Claim C1 (amended): for the order-1 model with Δt = 5, α = 0.2, β = 0.1,
initial state (30000, 40), processing the single measurement 30171 yields
predicted range 30200.00, residual −29.00, estimated range 30194.20 and
estimated velocity 39.42. -/
theorem cvRun_first_step_values :
    (cvRun (1/5) (1/10) 5 (30000, 40) [30171]).map
        (fun rec => (rec.xPred, (30171 : ℚ) - rec.xPred, rec.xEst, rec.vxEst))
      = [(30200, -29, 301942/10, 3942/100)] := by
  norm_num [cvRun]

/-- Claim C2: for the order-0 model with the time-varying gain α = 1/n, the
estimate recorded at (0-based) position k equals the arithmetic mean of the
first k+1 measurements, for every measurement list and initial estimate;
in particular measurements [996, 994, 1021] yield exact estimates
[996, 995, 3011/3], which print as [996.00, 995.00, 1003.67] at the
scripts' two-decimal format. -/
theorem staticRun_estimate_mean (x0 : ℚ) (ms : List ℚ) (k : ℕ) (hk : k < ms.length) :
    ((staticRun x0 ms).map Prod.snd).getD k 0 = (ms.take (k + 1)).sum / ((k : ℚ) + 1) ∧
    (staticRun 1000 [996, 994, 1021]).map Prod.snd = [996, 995, 3011/3] ∧
    ((staticRun 1000 [996, 994, 1021]).map Prod.snd).map round2
      = [996, 995, 100367/100] := by
  refine ⟨?_, by norm_num [staticRun, staticLoop],
    by norm_num [staticRun, staticLoop, round2]⟩
  have h := staticLoop_estimate ms 0 k x0 hk
  simpa [staticRun] using h

/-- Claim C2 witness: the mean property instantiated at the script's own
data, initial estimate 1000, measurements [996, 994, 1021], step 3. -/
theorem staticRun_estimate_mean_witness :
    (((staticRun 1000 [996, 994, 1021]).map Prod.snd).getD 2 0
        = (([996, 994, 1021] : List ℚ).take (2 + 1)).sum / (((2 : ℕ) : ℚ) + 1)) ∧
    (staticRun 1000 [996, 994, 1021]).map Prod.snd = [996, 995, 3011/3] ∧
    ((staticRun 1000 [996, 994, 1021]).map Prod.snd).map round2
      = [996, 995, 100367/100] :=
  staticRun_estimate_mean 1000 [996, 994, 1021] 2 (by norm_num)

/-- Claim C3: for the covariance-gain strategy with q ≥ 0, r > 0 and initial
variance p₀ ≥ 0, every post-update variance of the run is nonnegative, the
update sub-step never increases the variance (`p_est ≤ p_pred = p + q`), and
consecutive post-update variances (starting from p₀) grow by at most q. -/
theorem kalmanRun_variance_invariants (q r x0 p0 : ℚ) (ms : List ℚ)
    (hq : 0 ≤ q) (hr : 0 < r) (hp : 0 ≤ p0) :
    (∀ rec ∈ kalmanRun q r x0 p0 ms, 0 ≤ rec.var) ∧
    (∀ x p z : ℚ, 0 ≤ p → (kalmanStep q r x p z).2.2 ≤ p + q) ∧
    List.Chain' (fun a b => b ≤ a + q) (p0 :: (kalmanRun q r x0 p0 ms).map KRecord.var) := by
  refine ⟨kalmanRun_var_nonneg hq hr ms x0 p0 hp, ?_,
    kalmanRun_var_chain hq hr ms x0 p0 hp⟩
  intro x p z hp2
  rw [kalmanStep_var]
  exact kvar_le (by linarith) hr

/-- Claim C3 witness: the variance invariants at q = 1, r = 1, p₀ = 1,
measurement list [5]; the single step gives `p_pred = 2`, `K = 2/3`,
post-update variance `2/3`. -/
theorem kalmanRun_variance_invariants_witness :
    0 ≤ (KRecord.mk 0 (2/3) (10/3) (2/3)).var ∧
    (kalmanStep 1 1 0 1 5).2.2 ≤ 1 + 1 ∧
    List.Chain' (fun a b => b ≤ a + 1) (1 :: (kalmanRun 1 1 0 1 [5]).map KRecord.var) := by
  obtain ⟨h1, h2, h3⟩ :=
    kalmanRun_variance_invariants 1 1 0 1 [5] (by norm_num) (by norm_num) (by norm_num)
  exact ⟨h1 _ (by norm_num [kalmanRun, kalmanStep]), h2 0 1 5 (by norm_num), h3⟩

/-- Claim C4: for the covariance-gain strategy with q ≥ 0, r > 0 and initial
variance p₀ ≥ 0, the Kalman gain `K = p_pred / (p_pred + r)` of every step of
every run lies in [0, 1]. -/
theorem kalmanRun_gain_in_unit_interval (q r x0 p0 : ℚ) (ms : List ℚ)
    (hq : 0 ≤ q) (hr : 0 < r) (hp : 0 ≤ p0) :
    ∀ rec ∈ kalmanRun q r x0 p0 ms, 0 ≤ rec.gain ∧ rec.gain ≤ 1 :=
  kalmanRun_gain_mem_unit hq hr ms x0 p0 hp

/-- Claim C4 witness: the gain bound at q = 1, r = 1, p₀ = 1, measurement 5;
the single step's record is ⟨0, 2/3, 10/3, 2/3⟩. -/
theorem kalmanRun_gain_in_unit_interval_witness :
    0 ≤ (KRecord.mk 0 (2/3) (10/3) (2/3)).gain ∧
    (KRecord.mk 0 (2/3) (10/3) (2/3)).gain ≤ 1 :=
  kalmanRun_gain_in_unit_interval 1 1 0 1 [5] (by norm_num) (by norm_num) (by norm_num)
    _ (by norm_num [kalmanRun, kalmanStep])

/-- Claim C5: the order-2 predict step maps (x, v, a) with time step Δt to
(x + Δt·v + ½Δt²·a, v + Δt·a, a); from (30000, 50, 0) with Δt = 5 it yields
predicted position 30250, velocity 50, acceleration 0. -/
theorem caPredict_extrapolates :
    (∀ delta_t x v a : ℚ, caPredict delta_t (x, v, a)
        = (x + delta_t * v + 1/2 * delta_t ^ 2 * a, v + delta_t * a, a)) ∧
    caPredict 5 (30000, 50, 0) = (30250, 50, 0) := by
  constructor
  · intro dt x v a
    simp only [caPredict, Prod.mk.injEq]
    exact ⟨by ring, by ring, trivial⟩
  · norm_num [caPredict]

/-- Claim C6 (spec-modelled): running the estimation loop with Δt = 0 and a
model of order ≥ 1 fails with `InvalidParameter` — at validation for any
order ≥ 1, and through the checked order-1 and order-2 runs — instead of
dividing by zero in the velocity/acceleration corrections. -/
theorem deltaT_zero_rejected (order : ℕ) (h : 1 ≤ order)
    (alpha beta gamma : ℚ) (s2 : ℚ × ℚ) (s3 : ℚ × ℚ × ℚ) (ms : List ℚ) :
    validateDeltaT order 0 = .error .invalidParameter ∧
    cvRunChecked alpha beta 0 s2 ms = .error .invalidParameter ∧
    caRunChecked alpha beta gamma 0 s3 ms = .error .invalidParameter := by
  have h1 : validateDeltaT 1 0 = .error .invalidParameter := by
    rw [validateDeltaT, if_pos]
    exact ⟨le_refl 1, rfl⟩
  have h2 : validateDeltaT 2 0 = .error .invalidParameter := by
    rw [validateDeltaT, if_pos]
    exact ⟨by norm_num, rfl⟩
  refine ⟨?_, ?_, ?_⟩
  · rw [validateDeltaT, if_pos]
    exact ⟨h, rfl⟩
  · simp only [cvRunChecked, h1]
    rfl
  · simp only [caRunChecked, h2]
    rfl

/-- Claim C6 witness: the rejection at order 1 with concrete parameters. -/
theorem deltaT_zero_rejected_witness :
    validateDeltaT 1 0 = .error .invalidParameter ∧
    cvRunChecked 1 1 0 (0, 0) [] = .error .invalidParameter ∧
    caRunChecked 1 1 1 0 (0, 0, 0) [] = .error .invalidParameter :=
  deltaT_zero_rejected 1 (le_refl 1) 1 1 1 (0, 0) (0, 0, 0) []

/-- Claim C7: for every model order and gain strategy, running the
estimation loop on an empty measurement sequence returns an empty
trajectory (no predictions, estimates, gains or variances) without error;
the state threading never fires, leaving the initial state unconsumed. -/
theorem run_empty_trajectory (x0 v0 a0 p0 alpha beta gamma delta_t q r : ℚ) :
    staticRun x0 [] = [] ∧
    cvRun alpha beta delta_t (x0, v0) [] = [] ∧
    caRun alpha beta gamma delta_t (x0, v0, a0) [] = [] ∧
    kalmanRun q r x0 p0 [] = [] :=
  ⟨rfl, rfl, rfl, rfl⟩

/-- Claim C8: the estimation run is deterministic — for every fixed model,
gain parameters, initial state and measurement sequence, any two
trajectories produced by the same run coincide (each loop is a pure
function of its inputs). -/
theorem run_deterministic (x0 v0 a0 p0 alpha beta gamma delta_t q r : ℚ)
    (ms : List ℚ) :
    (∀ t1 t2 : List (ℚ × ℚ),
      t1 = staticRun x0 ms → t2 = staticRun x0 ms → t1 = t2) ∧
    (∀ t1 t2 : List CVRecord,
      t1 = cvRun alpha beta delta_t (x0, v0) ms →
        t2 = cvRun alpha beta delta_t (x0, v0) ms → t1 = t2) ∧
    (∀ t1 t2 : List CARecord,
      t1 = caRun alpha beta gamma delta_t (x0, v0, a0) ms →
        t2 = caRun alpha beta gamma delta_t (x0, v0, a0) ms → t1 = t2) ∧
    (∀ t1 t2 : List KRecord,
      t1 = kalmanRun q r x0 p0 ms → t2 = kalmanRun q r x0 p0 ms → t1 = t2) :=
  ⟨fun _ _ h1 h2 => h1.trans h2.symm, fun _ _ h1 h2 => h1.trans h2.symm,
   fun _ _ h1 h2 => h1.trans h2.symm, fun _ _ h1 h2 => h1.trans h2.symm⟩

/-- Claim C8 witness: two runs of the order-0 loop on the script's first
measurement produce the same trajectory. -/
theorem run_deterministic_witness :
    staticRun 1000 [996] = staticRun 1000 [996] :=
  (run_deterministic 1000 0 0 0 0 0 0 0 0 0 [996]).1 _ _ rfl rfl

/-- Claim C9: for the order-0 model with the harmonic gain α = 1/n, the
estimate at step n = 1 equals the first measurement for every initial
estimate and nonempty measurement list, and the recorded estimate sequence
does not depend on the initial estimate at all. -/
theorem staticRun_first_estimate (x0 y0 z : ℚ) (zs ms : List ℚ) :
    ((staticRun x0 (z :: zs)).map Prod.snd).getD 0 0 = z ∧
    (staticRun x0 ms).map Prod.snd = (staticRun y0 ms).map Prod.snd := by
  constructor
  · norm_num [staticRun, staticLoop]
  · cases ms with
    | nil => rfl
    | cons w ws =>
        have key : ∀ u : ℚ, u + 1 / ((1 : ℕ) : ℚ) * (w - u) = w := by
          intro u
          norm_num
        simp only [staticRun, staticLoop, List.map_cons]
        rw [key x0, key y0]

/-- Claim C10: for the covariance-gain strategy with q = 0, r > 0 and
initial variance p₀ ≥ 0, both the post-update variance sequence and the
Kalman gain sequence of a run are non-increasing. -/
theorem kalmanRun_q0_monotone (r x0 p0 : ℚ) (ms : List ℚ)
    (hr : 0 < r) (hp : 0 ≤ p0) :
    List.Chain' (fun a b => b ≤ a) ((kalmanRun 0 r x0 p0 ms).map KRecord.var) ∧
    List.Chain' (fun a b => b ≤ a) ((kalmanRun 0 r x0 p0 ms).map KRecord.gain) := by
  obtain ⟨-, -, hv, hg⟩ := kalmanRun_q0_chains hr ms x0 p0 hp
  exact ⟨hv, hg⟩

/-- Claim C10 witness: monotonicity at r = 1, p₀ = 1, measurements [5, 5]. -/
theorem kalmanRun_q0_monotone_witness :
    List.Chain' (fun a b => b ≤ a) ((kalmanRun 0 1 0 1 [5, 5]).map KRecord.var) ∧
    List.Chain' (fun a b => b ≤ a) ((kalmanRun 0 1 0 1 [5, 5]).map KRecord.gain) :=
  kalmanRun_q0_monotone 1 0 1 [5, 5] (by norm_num) (by norm_num)
